import Mathlib

/-!
Verification of the ledger analysis module (`analysis_core.py`) of the
data-audit-tools repository.

The module consumes a general-ledger table (one row per transaction, with a
debit account, a credit account and an amount), aggregates it into a
per-account balance table (`calculate_balance_by_account`), derives the
income statement (`calculate_net_income`), and cross-checks the aggregate
debit/credit totals restricted to the accounts of the balance table
(the integrity check inlined in `__main__`).

Embedding choices:
  * a DataFrame of ledger rows is a `List TxRecord`; only the columns the
    analysis reads (`Compte_Debit`, `Compte_Credit`, `Montant`) are joined by
    the informational columns (`Date`, `Libelle`, `ID_Transaction`);
  * `Montant` is embedded as `ℚ` (the spec mandates exact two-decimal
    currency semantics for amounts; binary floating point artefacts are out
    of scope), and Python's `round(x, 2)` is embedded as rounding to the
    nearest multiple of 1/100 with ties to even, which is NumPy/Python
    round-half-even on exact decimal inputs;
  * `.astype(int)` on the index is embedded through `pyInt?`, a partial
    parse of Python `int(str)` on ASCII strings: an optional sign followed
    by a nonempty run of decimal digits (whitespace, underscores and
    non-ASCII digits, which `int` also accepts, never occur in account
    codes and are out of scope); a parse failure anywhere makes the whole
    aggregation fail, as `astype(int)` raises `ValueError`;
  * `pandas` `groupby(...).sum()` becomes filter-and-sum per key;
    the union-of-indexes produced by `pd.concat(..., axis=1).fillna(0)`
    becomes the deduplicated list of keys of both groupings;
  * `sort_index()` becomes a stable insertion sort on the integer key.
    On ties (two distinct strings with the same integer value) the source's
    order is unspecified (NumPy quicksort); no theorem below depends on the
    relative order of tied rows.
-/

/-- One row of the general ledger (`grand_livre_10k.csv`).
`date`, `libelle` and `id_transaction` are informational only: the analysis
never reads them. -/
structure TxRecord where
  date : String
  compte_debit : String
  compte_credit : String
  montant : ℚ
  libelle : String
  id_transaction : ℤ
deriving DecidableEq

/-- One row of the aggregator's output (the Balance Générale): the account
identifier as rendered in the output index, its debit and credit totals and
the final balance. -/
structure BalanceRow where
  account : String
  Total_Debit : ℚ
  Total_Credit : ℚ
  Final_Balance : ℚ
deriving DecidableEq

/-- The dictionary returned by `calculate_net_income`. -/
structure IncomeSummary where
  Total_Products : ℚ
  Total_Charges : ℚ
  Net_Income : ℚ
deriving DecidableEq

/-- Digit-run parse: `some n` when the characters are a nonempty run of ASCII
decimal digits, `none` otherwise. -/
def digitsToNat? (cs : List Char) : Option Nat :=
  if cs = [] then none
  else if cs.all (fun c => c.isDigit) then
    some (cs.foldl (fun n c => 10 * n + (c.toNat - 48)) 0)
  else none

/-- Python `int(s)` on an ASCII account code: an optional `-` or `+` sign
followed by a nonempty digit run; `none` models the `ValueError` raised on
anything else. -/
def pyInt? (s : String) : Option Int :=
  match s.data with
  | '-' :: rest => (digitsToNat? rest).map (fun n => -(n : Int))
  | '+' :: rest => (digitsToNat? rest).map (fun n => (n : Int))
  | cs => (digitsToNat? cs).map (fun n => (n : Int))

/-- The debit grouping `df.groupby("Compte_Debit")["Montant"].sum()`
evaluated at one key: the sum of `Montant` over the rows whose debit account
is `k`. -/
def debitTotal (df : List TxRecord) (k : String) : ℚ :=
  ((df.filter (fun r => r.compte_debit == k)).map (fun r => r.montant)).sum

/-- The credit grouping `df.groupby("Compte_Credit")["Montant"].sum()`
evaluated at one key. -/
def creditTotal (df : List TxRecord) (k : String) : ℚ :=
  ((df.filter (fun r => r.compte_credit == k)).map (fun r => r.montant)).sum

/-- The keys of `pd.concat([debits, credits], axis=1)`: the union of the
debit-account keys and the credit-account keys, without duplicates.  (The
order of this list is irrelevant: the aggregator sorts by integer key.) -/
def accountKeys (df : List TxRecord) : List String :=
  ((df.map (fun r => r.compte_debit)) ++ (df.map (fun r => r.compte_credit))).dedup

/-- Whether `balance_df.index.astype(int)` succeeds on every key.  When this
is false the source raises `ValueError`. -/
def allParseable (df : List TxRecord) : Bool :=
  (accountKeys df).all (fun k => (pyInt? k).isSome)

/-- Each key paired with its integer value (defined whenever `allParseable`
holds; keys that fail to parse are dropped, but the aggregator only uses
this list after checking `allParseable`). -/
def keyVals (df : List TxRecord) : List (ℤ × String) :=
  (accountKeys df).filterMap (fun k => (pyInt? k).map (fun v => (v, k)))

/-- The sort relation of `sort_index()` after `astype(int)`: compare the
integer values. -/
def byVal (p q : ℤ × String) : Prop := p.1 ≤ q.1

instance : DecidableRel byVal := fun p q => inferInstanceAs (Decidable (p.1 ≤ q.1))

instance : IsTotal (ℤ × String) byVal := ⟨fun p q => le_total p.1 q.1⟩

instance : IsTrans (ℤ × String) byVal := ⟨fun _ _ _ h h' => le_trans h h'⟩

/-- The output row for one (integer value, original key) pair: the index is
re-rendered from the integer (`astype(str)`), the totals come from the
groupings keyed by the original string (missing side filled with 0 by
`fillna(0)`, which the empty filter realises), and
`Final_Balance = Total_Debit - Total_Credit`. -/
def mkRow (df : List TxRecord) (p : ℤ × String) : BalanceRow :=
  { account := toString p.1
    Total_Debit := debitTotal df p.2
    Total_Credit := creditTotal df p.2
    Final_Balance := debitTotal df p.2 - creditTotal df p.2 }

/-- The function `calculate_balance_by_account`: group by debit account, group by credit
account, outer-join with zero fill, derive the balance, convert the index to
integers (raising — `none` — when a key is not an integer literal), sort by
the integer index, convert it back to strings. -/
def calculate_balance_by_account (df : List TxRecord) : Option (List BalanceRow) :=
  if allParseable df then
    some (((keyVals df).insertionSort byVal).map (mkRow df))
  else none

/-- Rounding to the nearest integer, ties to even, on `ℚ`. -/
def roundHalfEven (q : ℚ) : ℤ :=
  let n : ℤ := ⌊q⌋
  if q - n < 1 / 2 then n
  else if (1 : ℚ) / 2 < q - n then n + 1
  else if n % 2 = 0 then n else n + 1

/-- Python `round(x, 2)` on exact decimal data: round `100 x` half-to-even
and scale back. -/
def round2 (q : ℚ) : ℚ := (roundHalfEven (q * 100) : ℚ) / 100

/-- The index test `balance_df.index.str.startswith(pre)` at one entry. -/
def startswith (s pre : String) : Bool := pre.data.isPrefixOf s.data

/-- A string that survives the aggregator's index round-trip unchanged: it
parses as an integer whose decimal rendering is the string itself (so no
leading zeros, no `+` sign, no `-0`).  Every account code emitted by the
repository's generator (`str` applied to an `int`) is canonical. -/
def canonicalId (s : String) : Bool :=
  match pyInt? s with
  | some v => toString v == s
  | none => false

/-- The function `calculate_net_income`: keep the class-6 and class-7 rows, sum the credit
side of the class-7 rows into `Total_Products`, the debit side of the class-6
rows into `Total_Charges`, subtract, and round the three reported values to
two decimals. -/
def calculate_net_income (balance_df : List BalanceRow) : IncomeSummary :=
  let income_expense_df := balance_df.filter
    (fun r => startswith r.account "6" || startswith r.account "7")
  let total_products :=
    ((income_expense_df.filter (fun r => startswith r.account "7")).map
      (fun r => r.Total_Credit)).sum
  let total_charges :=
    ((income_expense_df.filter (fun r => startswith r.account "6")).map
      (fun r => r.Total_Debit)).sum
  let net_income := total_products - total_charges
  { Total_Products := round2 total_products
    Total_Charges := round2 total_charges
    Net_Income := round2 net_income }

/-- The integrity check inlined in `__main__`: the ledger debits restricted
to rows whose debit account is in `known`, the ledger credits restricted to
rows whose credit account is in `known`, and their difference.
(`Series.where(cond)` puts `NaN` outside `cond` and `.sum()` skips `NaN`,
i.e. a filtered sum.) -/
def check_integrity (df : List TxRecord) (known : List String) : ℚ × ℚ × ℚ :=
  let total_debits :=
    ((df.filter (fun r => known.contains r.compte_debit)).map
      (fun r => r.montant)).sum
  let total_credits :=
    ((df.filter (fun r => known.contains r.compte_credit)).map
      (fun r => r.montant)).sum
  (total_debits, total_credits, total_debits - total_credits)

/-! ### General list lemmas -/

lemma sum_map_add_distrib {α : Type} (l : List α) (g h : α → ℚ) :
    (l.map (fun a => g a + h a)).sum = (l.map g).sum + (l.map h).sum := by
  induction l with
  | nil => simp
  | cons x t ih => simp [ih]; ring

lemma sum_map_ite_of_not_mem (ks : List String) (a : String) (c : ℚ)
    (ha : a ∉ ks) : (ks.map (fun k => if a = k then c else 0)).sum = 0 := by
  induction ks with
  | nil => simp
  | cons k t ih =>
    have hak : ¬a = k := fun h => ha (h ▸ List.mem_cons_self k t)
    have hat : a ∉ t := fun h => ha (List.mem_cons_of_mem k h)
    simp [hak, ih hat]

lemma sum_map_ite_single (ks : List String) (a : String) (c : ℚ)
    (hnd : ks.Nodup) (ha : a ∈ ks) :
    (ks.map (fun k => if a = k then c else 0)).sum = c := by
  induction ks with
  | nil => cases ha
  | cons k t ih =>
    rcases List.mem_cons.mp ha with h | h
    · subst h
      have hat : a ∉ t := (List.nodup_cons.mp hnd).1
      simp [sum_map_ite_of_not_mem t a c hat]
    · have hak : ¬a = k := by
        rintro rfl
        exact (List.nodup_cons.mp hnd).1 h
      simp [hak, ih (List.nodup_cons.mp hnd).2 h]

/-- Summing a grouping over a duplicate-free list of keys that covers every
row recovers the total sum: the core of the double-entry invariant. -/
lemma sum_groups (f : TxRecord → String) (l : List TxRecord) (ks : List String)
    (hnd : ks.Nodup) (hmem : ∀ r ∈ l, f r ∈ ks) :
    (ks.map (fun k => ((l.filter (fun r => f r == k)).map (fun r => r.montant)).sum)).sum
      = (l.map (fun r => r.montant)).sum := by
  induction l with
  | nil => simp
  | cons r t ih =>
    have hr : f r ∈ ks := hmem r (List.mem_cons_self r t)
    have ht : ∀ x ∈ t, f x ∈ ks := fun x hx => hmem x (List.mem_cons_of_mem r hx)
    have hsplit : ∀ k : String,
        (((r :: t).filter (fun x => f x == k)).map (fun x => x.montant)).sum
          = (if f r = k then r.montant else 0)
            + ((t.filter (fun x => f x == k)).map (fun x => x.montant)).sum := by
      intro k
      by_cases h : f r = k
      · simp [List.filter_cons, h]
      · simp [List.filter_cons, h]
    simp only [hsplit]
    rw [sum_map_add_distrib, sum_map_ite_single ks (f r) r.montant hnd hr, ih ht]
    simp

/-! ### Lemmas about the embedding -/

lemma mem_accountKeys_debit (df : List TxRecord) (r : TxRecord) (hr : r ∈ df) :
    r.compte_debit ∈ accountKeys df := by
  unfold accountKeys
  rw [List.mem_dedup, List.mem_append]
  exact Or.inl (List.mem_map_of_mem (fun x => x.compte_debit) hr)

lemma mem_accountKeys_credit (df : List TxRecord) (r : TxRecord) (hr : r ∈ df) :
    r.compte_credit ∈ accountKeys df := by
  unfold accountKeys
  rw [List.mem_dedup, List.mem_append]
  exact Or.inr (List.mem_map_of_mem (fun x => x.compte_credit) hr)

lemma nodup_accountKeys (df : List TxRecord) : (accountKeys df).Nodup :=
  List.nodup_dedup _

lemma filterMap_pyInt_snd (ks : List String)
    (hp : ∀ k ∈ ks, (pyInt? k).isSome = true) :
    (ks.filterMap (fun k => (pyInt? k).map (fun v => (v, k)))).map Prod.snd = ks := by
  induction ks with
  | nil => rfl
  | cons k t ih =>
    obtain ⟨v, hv⟩ := Option.isSome_iff_exists.mp (hp k (List.mem_cons_self k t))
    rw [List.filterMap_cons]
    simp only [hv, Option.map_some']
    rw [List.map_cons]
    rw [ih (fun x hx => hp x (List.mem_cons_of_mem k hx))]

lemma keyVals_snd (df : List TxRecord) (h : allParseable df = true) :
    (keyVals df).map Prod.snd = accountKeys df := by
  apply filterMap_pyInt_snd
  intro k hk
  exact List.all_eq_true.mp h k hk

lemma mem_keyVals {df : List TxRecord} {p : ℤ × String} :
    p ∈ keyVals df ↔ p.2 ∈ accountKeys df ∧ pyInt? p.2 = some p.1 := by
  obtain ⟨v, k⟩ := p
  unfold keyVals
  rw [List.mem_filterMap]
  constructor
  · rintro ⟨x, hx, hmap⟩
    rcases Option.map_eq_some'.mp hmap with ⟨a, ha, hpair⟩
    cases hpair
    exact ⟨hx, ha⟩
  · rintro ⟨hk, hv⟩
    exact ⟨k, hk, by rw [hv]; rfl⟩

lemma calc_some {df : List TxRecord} {rows : List BalanceRow}
    (h : calculate_balance_by_account df = some rows) :
    allParseable df = true
      ∧ rows = ((keyVals df).insertionSort byVal).map (mkRow df) := by
  by_cases hp : allParseable df = true
  · rw [calculate_balance_by_account, if_pos hp] at h
    exact ⟨hp, (Option.some.inj h).symm⟩
  · rw [calculate_balance_by_account, if_neg hp] at h
    cases h

lemma sum_debit_rows (df : List TxRecord) (hp : allParseable df = true) :
    ((((keyVals df).insertionSort byVal).map (mkRow df)).map
        (fun r => r.Total_Debit)).sum = (df.map (fun r => r.montant)).sum := by
  rw [List.map_map]
  have hcomp : (fun r : BalanceRow => r.Total_Debit) ∘ (mkRow df)
      = fun p : ℤ × String => debitTotal df p.2 := rfl
  rw [hcomp]
  rw [((List.perm_insertionSort byVal (keyVals df)).map
    (fun p : ℤ × String => debitTotal df p.2)).sum_eq]
  have hmm : (keyVals df).map (fun p : ℤ × String => debitTotal df p.2)
      = ((keyVals df).map Prod.snd).map (debitTotal df) := by
    rw [List.map_map]; rfl
  rw [hmm, keyVals_snd df hp]
  exact sum_groups (fun r => r.compte_debit) df (accountKeys df)
    (nodup_accountKeys df) (fun r hr => mem_accountKeys_debit df r hr)

lemma sum_credit_rows (df : List TxRecord) (hp : allParseable df = true) :
    ((((keyVals df).insertionSort byVal).map (mkRow df)).map
        (fun r => r.Total_Credit)).sum = (df.map (fun r => r.montant)).sum := by
  rw [List.map_map]
  have hcomp : (fun r : BalanceRow => r.Total_Credit) ∘ (mkRow df)
      = fun p : ℤ × String => creditTotal df p.2 := rfl
  rw [hcomp]
  rw [((List.perm_insertionSort byVal (keyVals df)).map
    (fun p : ℤ × String => creditTotal df p.2)).sum_eq]
  have hmm : (keyVals df).map (fun p : ℤ × String => creditTotal df p.2)
      = ((keyVals df).map Prod.snd).map (creditTotal df) := by
    rw [List.map_map]; rfl
  rw [hmm, keyVals_snd df hp]
  exact sum_groups (fun r => r.compte_credit) df (accountKeys df)
    (nodup_accountKeys df) (fun r hr => mem_accountKeys_credit df r hr)

/-! ### Concrete data used by the witnesses -/

/-- A small two-record ledger with canonical identifiers. -/
def dfW1 : List TxRecord :=
  [{ date := "2024-03-01", compte_debit := "101", compte_credit := "202",
     montant := 3, libelle := "a", id_transaction := 1 },
   { date := "2024-03-02", compte_debit := "202", compte_credit := "101",
     montant := 5, libelle := "b", id_transaction := 2 }]

/-- The aggregator's output on `dfW1`. -/
def rowsW1 : List BalanceRow :=
  [{ account := "101", Total_Debit := 3, Total_Credit := 5, Final_Balance := -2 },
   { account := "202", Total_Debit := 5, Total_Credit := 3, Final_Balance := 2 }]

lemma calc_dfW1 : calculate_balance_by_account dfW1 = some rowsW1 := by
  rw [calculate_balance_by_account,
    if_pos (show allParseable dfW1 = true from by decide),
    show (keyVals dfW1).insertionSort byVal = [(101, "101"), (202, "202")] from by decide]
  simp [mkRow, debitTotal, creditTotal, dfW1, rowsW1]
  norm_num
  decide

/-! ### C1 -/

/-- C1: for every ledger accepted by the aggregator, the sum of
`Total_Debit` over the output equals the sum of `Total_Credit` over the
output, and both equal the sum of `Montant` over the input records. -/
theorem global_double_entry_invariant (df : List TxRecord) (rows : List BalanceRow)
    (h : calculate_balance_by_account df = some rows) :
    (rows.map (fun r => r.Total_Debit)).sum = (rows.map (fun r => r.Total_Credit)).sum
      ∧ (rows.map (fun r => r.Total_Debit)).sum = (df.map (fun r => r.montant)).sum := by
  obtain ⟨hp, hrows⟩ := calc_some h
  subst hrows
  have hd := sum_debit_rows df hp
  have hc := sum_credit_rows df hp
  exact ⟨hd.trans hc.symm, hd⟩

/-- Witness for C1 at the concrete ledger `dfW1`. -/
theorem global_double_entry_invariant_witness :
    (rowsW1.map (fun r => r.Total_Debit)).sum = (rowsW1.map (fun r => r.Total_Credit)).sum
      ∧ (rowsW1.map (fun r => r.Total_Debit)).sum = (dfW1.map (fun r => r.montant)).sum :=
  global_double_entry_invariant dfW1 rowsW1 calc_dfW1

/-! ### C2 -/

/-- C2: every row of the aggregator's output satisfies
`Final_Balance = Total_Debit - Total_Credit` exactly. -/
theorem final_balance_spec (df : List TxRecord) (rows : List BalanceRow)
    (row : BalanceRow) (h : calculate_balance_by_account df = some rows)
    (hrow : row ∈ rows) :
    row.Final_Balance = row.Total_Debit - row.Total_Credit := by
  obtain ⟨_, hrows⟩ := calc_some h
  subst hrows
  rcases List.mem_map.mp hrow with ⟨p, _, hp⟩
  rw [← hp]
  rfl

/-- Witness for C2 at the first output row of `dfW1`. -/
theorem final_balance_spec_witness :
    ({ account := "101", Total_Debit := 3, Total_Credit := 5,
       Final_Balance := -2 } : BalanceRow).Final_Balance
      = ({ account := "101", Total_Debit := 3, Total_Credit := 5,
           Final_Balance := -2 } : BalanceRow).Total_Debit
        - ({ account := "101", Total_Debit := 3, Total_Credit := 5,
             Final_Balance := -2 } : BalanceRow).Total_Credit :=
  final_balance_spec dfW1 rowsW1 _ calc_dfW1
    (show ({ account := "101", Total_Debit := 3, Total_Credit := 5,
             Final_Balance := -2 } : BalanceRow) ∈ rowsW1 from List.mem_cons_self _ _)

/-! ### C3 -/

/-- A one-record ledger with a leading-zero identifier: parseable as a
non-negative integer, but not equal to its own decimal re-rendering. -/
def df3 : List TxRecord :=
  [{ date := "2024-04-01", compte_debit := "007", compte_credit := "12",
     montant := 250, libelle := "c", id_transaction := 1 }]

/-- Counterexample to C3 as stated: on `df3` every identifier parses as a
non-negative integer, yet the aggregator's output index is `["7", "12"]` —
the entry `"7"` is not one of the input identifiers, whose list is
`["007", "12"]` (the leading zero of `"007"` is lost by the
`astype(int)`/`astype(str)` round-trip). -/
theorem identifier_preservation_counterexample :
    (∀ k ∈ accountKeys df3, (pyInt? k).isSome = true ∧ 0 ≤ (pyInt? k).getD 0)
      ∧ (calculate_balance_by_account df3).map (fun rows => rows.map (fun r => r.account))
          = some ["7", "12"]
      ∧ accountKeys df3 = ["007", "12"]
      ∧ ¬("7" ∈ (["007", "12"] : List String)) := by
  refine ⟨by decide, by decide, by decide, by decide⟩

/-- C3 as amended: for every ledger the aggregator accepts, the output rows
are sorted ascending by the integer value of the account identifier, and the
output identifiers are exactly the decimal renderings of the integer values
of the input identifiers (the original spellings — leading zeros, plus
signs — are not preserved). -/
theorem balance_sorted_by_int_value (df : List TxRecord) (rows : List BalanceRow)
    (h : calculate_balance_by_account df = some rows) :
    ∃ vs : List ℤ, vs.Sorted (fun a b => a ≤ b)
      ∧ rows.map (fun r => r.account) = vs.map (fun v => toString v)
      ∧ ∀ v : ℤ, v ∈ vs ↔ ∃ k, k ∈ accountKeys df ∧ pyInt? k = some v := by
  obtain ⟨hp, hrows⟩ := calc_some h
  subst hrows
  refine ⟨((keyVals df).insertionSort byVal).map Prod.fst, ?_, ?_, ?_⟩
  · have hs := List.sorted_insertionSort byVal (keyVals df)
    rw [List.Sorted, List.pairwise_map]
    exact hs
  · rw [List.map_map, List.map_map]
    rfl
  · intro v
    rw [List.mem_map]
    constructor
    · rintro ⟨p, hps, rfl⟩
      have hpk : p ∈ keyVals df := (List.mem_insertionSort byVal).mp hps
      rcases mem_keyVals.mp hpk with ⟨hk, hv⟩
      exact ⟨p.2, hk, hv⟩
    · rintro ⟨k, hk, hv⟩
      refine ⟨(v, k), ?_, rfl⟩
      rw [List.mem_insertionSort]
      exact mem_keyVals.mpr ⟨hk, hv⟩

/-- Witness for the amended C3 at the concrete ledger `dfW1`. -/
theorem balance_sorted_by_int_value_witness :
    ∃ vs : List ℤ, vs.Sorted (fun a b => a ≤ b)
      ∧ rowsW1.map (fun r => r.account) = vs.map (fun v => toString v)
      ∧ ∀ v : ℤ, v ∈ vs ↔ ∃ k, k ∈ accountKeys dfW1 ∧ pyInt? k = some v :=
  balance_sorted_by_int_value dfW1 rowsW1 calc_dfW1

/-! ### C4 -/

/-- A one-record ledger whose credit-side account has a leading zero. -/
def df4 : List TxRecord :=
  [{ date := "2024-05-01", compte_debit := "52", compte_credit := "07",
     montant := 80, libelle := "d", id_transaction := 1 }]

/-- Counterexample to C4 as stated: on `df4` the union of the debit and
credit keys is `{"52", "07"}`, but the set of accounts in the output is
`{"7", "52"}`: the credit-only account `"07"` is reported under the
re-rendered name `"7"`, so the output account set differs from the union of
the input key sets. -/
theorem output_union_counterexample :
    ("07" ∈ accountKeys df4)
      ∧ (calculate_balance_by_account df4).map (fun rows => rows.map (fun r => r.account))
          = some ["7", "52"]
      ∧ ¬("07" ∈ (["7", "52"] : List String)) := by
  refine ⟨by decide, by decide, by decide⟩

lemma canonical_keyVals {df : List TxRecord}
    (hc : ∀ k ∈ accountKeys df, canonicalId k = true)
    {p : ℤ × String} (hp : p ∈ keyVals df) : toString p.1 = p.2 := by
  rcases mem_keyVals.mp hp with ⟨hk, hv⟩
  have h1 := hc p.2 hk
  unfold canonicalId at h1
  rw [hv] at h1
  exact beq_iff_eq.mp h1

/-- Under canonical identifiers, the accounts of the aggregator's output are
exactly the keys of the two groupings. -/
lemma output_account_iff (df : List TxRecord) (hp : allParseable df = true)
    (hc : ∀ k ∈ accountKeys df, canonicalId k = true) (a : String) :
    (∃ row ∈ ((keyVals df).insertionSort byVal).map (mkRow df), row.account = a)
      ↔ a ∈ accountKeys df := by
  constructor
  · rintro ⟨row, hrow, rfl⟩
    rcases List.mem_map.mp hrow with ⟨p, hps, rfl⟩
    have hpk : p ∈ keyVals df := (List.mem_insertionSort byVal).mp hps
    have hcan : (mkRow df p).account = p.2 := canonical_keyVals hc hpk
    rw [hcan]
    exact (mem_keyVals.mp hpk).1
  · intro ha
    obtain ⟨v, hv⟩ := Option.isSome_iff_exists.mp (List.all_eq_true.mp hp a ha)
    have hpk : ((v, a) : ℤ × String) ∈ keyVals df := mem_keyVals.mpr ⟨ha, hv⟩
    refine ⟨mkRow df (v, a), List.mem_map.mpr ⟨(v, a), ?_, rfl⟩, ?_⟩
    · rw [List.mem_insertionSort]
      exact hpk
    · exact canonical_keyVals hc hpk

lemma debitTotal_eq_zero (df : List TxRecord) (a : String)
    (h : ∀ r ∈ df, ¬r.compte_debit = a) : debitTotal df a = 0 := by
  unfold debitTotal
  rw [List.filter_eq_nil_iff.mpr ?_]
  · rfl
  · intro r hr
    simp [h r hr]

/-- C4 as amended: for a ledger whose account identifiers are canonical
decimal strings, the accounts of the output are exactly the union of the
debit-account and credit-account keys; each output row carries the debit and
credit totals of its account (0 when the account never occurs on that side);
an account on neither side has no row. -/
theorem output_accounts_union (df : List TxRecord) (rows : List BalanceRow)
    (h : calculate_balance_by_account df = some rows)
    (hc : ∀ k ∈ accountKeys df, canonicalId k = true) :
    (∀ a : String, (∃ row ∈ rows, row.account = a) ↔ a ∈ accountKeys df)
      ∧ (∀ row ∈ rows, row.Total_Debit = debitTotal df row.account
          ∧ row.Total_Credit = creditTotal df row.account)
      ∧ (∀ row ∈ rows, (∀ r ∈ df, ¬r.compte_debit = row.account) →
          row.Total_Debit = 0) := by
  obtain ⟨hp, hrows⟩ := calc_some h
  subst hrows
  have htot : ∀ row ∈ ((keyVals df).insertionSort byVal).map (mkRow df),
      row.Total_Debit = debitTotal df row.account
        ∧ row.Total_Credit = creditTotal df row.account := by
    intro row hrow
    rcases List.mem_map.mp hrow with ⟨p, hps, rfl⟩
    have hpk : p ∈ keyVals df := (List.mem_insertionSort byVal).mp hps
    have hcan : (mkRow df p).account = p.2 := canonical_keyVals hc hpk
    rw [hcan]
    exact ⟨rfl, rfl⟩
  refine ⟨output_account_iff df hp hc, htot, ?_⟩
  intro row hrow hnone
  rw [(htot row hrow).1]
  exact debitTotal_eq_zero df row.account hnone

/-- Witness for the amended C4 at the concrete ledger `dfW1`. -/
theorem output_accounts_union_witness :
    (∀ a : String, (∃ row ∈ rowsW1, row.account = a) ↔ a ∈ accountKeys dfW1)
      ∧ (∀ row ∈ rowsW1, row.Total_Debit = debitTotal dfW1 row.account
          ∧ row.Total_Credit = creditTotal dfW1 row.account)
      ∧ (∀ row ∈ rowsW1, (∀ r ∈ dfW1, ¬r.compte_debit = row.account) →
          row.Total_Debit = 0) :=
  output_accounts_union dfW1 rowsW1 calc_dfW1 (by decide)

/-! ### C5 -/

/-- The income statement written directly in terms of single filters: the
pre-filter to classes 6 and 7 collapses, so only the class-7 credit side and
the class-6 debit side enter the three reported values. -/
lemma calculate_net_income_eq (b : List BalanceRow) :
    calculate_net_income b =
      { Total_Products :=
          round2 (((b.filter (fun r => startswith r.account "7")).map
            (fun r => r.Total_Credit)).sum)
        Total_Charges :=
          round2 (((b.filter (fun r => startswith r.account "6")).map
            (fun r => r.Total_Debit)).sum)
        Net_Income :=
          round2 ((((b.filter (fun r => startswith r.account "7")).map
              (fun r => r.Total_Credit)).sum)
            - (((b.filter (fun r => startswith r.account "6")).map
              (fun r => r.Total_Debit)).sum)) } := by
  unfold calculate_net_income
  have h7 : (b.filter (fun r => startswith r.account "6" || startswith r.account "7")).filter
        (fun r => startswith r.account "7")
      = b.filter (fun r => startswith r.account "7") := by
    rw [List.filter_filter]
    congr 1
    funext r
    cases startswith r.account "7" <;> cases startswith r.account "6" <;> rfl
  have h6 : (b.filter (fun r => startswith r.account "6" || startswith r.account "7")).filter
        (fun r => startswith r.account "6")
      = b.filter (fun r => startswith r.account "6") := by
    rw [List.filter_filter]
    congr 1
    funext r
    cases startswith r.account "6" <;> cases startswith r.account "6" <;> rfl
  simp only [h7, h6]

/-- C5: on any balance table, the income classifier returns exactly
`round2` of the class-7 credit sum, `round2` of the class-6 debit sum, and
`round2` of their difference; rows whose account starts with any other
digit contribute to none of the three values. -/
theorem net_income_spec (b : List BalanceRow) :
    calculate_net_income b =
      { Total_Products :=
          round2 (((b.filter (fun r => startswith r.account "7")).map
            (fun r => r.Total_Credit)).sum)
        Total_Charges :=
          round2 (((b.filter (fun r => startswith r.account "6")).map
            (fun r => r.Total_Debit)).sum)
        Net_Income :=
          round2 ((((b.filter (fun r => startswith r.account "7")).map
              (fun r => r.Total_Credit)).sum)
            - (((b.filter (fun r => startswith r.account "6")).map
              (fun r => r.Total_Debit)).sum)) } :=
  calculate_net_income_eq b

/-! ### Rounding helper lemmas -/

lemma roundHalfEven_intCast (m : ℤ) : roundHalfEven (m : ℚ) = m := by
  unfold roundHalfEven
  rw [Int.floor_intCast]
  norm_num

lemma round2_eval (q : ℚ) (m : ℤ) (h : q * 100 = (m : ℚ)) :
    round2 q = (m : ℚ) / 100 := by
  unfold round2
  rw [h, roundHalfEven_intCast]

lemma round2_zero : round2 0 = 0 := by
  rw [round2_eval 0 0 (by norm_num)]
  norm_num

/-! ### C8 -/

/-- C8: when no account of the balance table is in class 6 or class 7, the
income classifier returns the all-zero summary (and in particular raises no
error: it is total). -/
theorem net_income_no_class67 (b : List BalanceRow)
    (h : ∀ r ∈ b, startswith r.account "6" = false ∧ startswith r.account "7" = false) :
    calculate_net_income b =
      { Total_Products := 0, Total_Charges := 0, Net_Income := 0 } := by
  rw [calculate_net_income_eq]
  have h7 : b.filter (fun r => startswith r.account "7") = [] :=
    List.filter_eq_nil_iff.mpr (fun r hr => by simp [(h r hr).2])
  have h6 : b.filter (fun r => startswith r.account "6") = [] :=
    List.filter_eq_nil_iff.mpr (fun r hr => by simp [(h r hr).1])
  rw [h7, h6]
  simp [round2_zero]

/-- Witness for C8 at a one-row balance table in class 5. -/
theorem net_income_no_class67_witness :
    calculate_net_income
        [{ account := "512", Total_Debit := 3, Total_Credit := 4, Final_Balance := -1 }]
      = { Total_Products := 0, Total_Charges := 0, Net_Income := 0 } :=
  net_income_no_class67
    [{ account := "512", Total_Debit := 3, Total_Credit := 4, Final_Balance := -1 }]
    (by decide)

/-! ### C6 -/

/-- A one-record ledger with a leading-zero debit account. -/
def df6 : List TxRecord :=
  [{ date := "2024-06-01", compte_debit := "012", compte_credit := "34",
     montant := 100, libelle := "e", id_transaction := 1 }]

/-- Counterexample to C6 as stated: on `df6` the output accounts are
`["12", "34"]`, so the membership test of the integrity check misses the
record whose debit account is spelled `"012"`: the known-debit total is `0`
instead of the full `100`, and the reported difference is `-100`, not `0`. -/
theorem integrity_check_counterexample :
    (calculate_balance_by_account df6).map (fun rows => rows.map (fun r => r.account))
        = some ["12", "34"]
      ∧ check_integrity df6 ["12", "34"] = (0, 100, -100)
      ∧ (df6.map (fun r => r.montant)).sum = 100 := by
  refine ⟨by decide, ?_, by simp [df6]⟩
  simp [check_integrity, df6]

/-- C6 as amended: for a ledger whose account identifiers are canonical
decimal strings, the integrity check run against the accounts of the
aggregator's output degenerates to the full-ledger totals on both sides,
and the reported difference is `0`. -/
theorem integrity_check_degenerates (df : List TxRecord) (rows : List BalanceRow)
    (h : calculate_balance_by_account df = some rows)
    (hc : ∀ k ∈ accountKeys df, canonicalId k = true) :
    check_integrity df (rows.map (fun r => r.account))
      = ((df.map (fun r => r.montant)).sum, (df.map (fun r => r.montant)).sum, 0) := by
  obtain ⟨hp, hrows⟩ := calc_some h
  have hknown : ∀ a : String, a ∈ accountKeys df → a ∈ rows.map (fun r => r.account) := by
    intro a ha
    rcases (output_account_iff df hp hc a).mpr ha with ⟨row, hrow, hacc⟩
    exact List.mem_map.mpr ⟨row, hrows ▸ hrow, hacc⟩
  have hdeb : df.filter
      (fun r => (rows.map (fun r => r.account)).contains r.compte_debit) = df := by
    rw [List.filter_eq_self]
    intro r hr
    exact List.elem_iff.mpr (hknown _ (mem_accountKeys_debit df r hr))
  have hcred : df.filter
      (fun r => (rows.map (fun r => r.account)).contains r.compte_credit) = df := by
    rw [List.filter_eq_self]
    intro r hr
    exact List.elem_iff.mpr (hknown _ (mem_accountKeys_credit df r hr))
  unfold check_integrity
  simp only [hdeb, hcred]
  rw [sub_self]

/-- Witness for the amended C6 at the concrete ledger `dfW1`. -/
theorem integrity_check_degenerates_witness :
    check_integrity dfW1 (rowsW1.map (fun r => r.account))
      = ((dfW1.map (fun r => r.montant)).sum, (dfW1.map (fun r => r.montant)).sum, 0) :=
  integrity_check_degenerates dfW1 rowsW1 calc_dfW1 (by decide)

/-! ### C7 -/

/-- The concrete two-record scenario ledger of the spec. -/
def df7 : List TxRecord :=
  [{ date := "2024-01-01", compte_debit := "411", compte_credit := "707",
     montant := 1000, libelle := "Facture Vente", id_transaction := 1 },
   { date := "2024-01-02", compte_debit := "607", compte_credit := "401",
     montant := 500, libelle := "Facture Achat", id_transaction := 2 }]

/-- The expected aggregator output on the scenario ledger. -/
def rows7 : List BalanceRow :=
  [{ account := "401", Total_Debit := 0, Total_Credit := 500, Final_Balance := -500 },
   { account := "411", Total_Debit := 1000, Total_Credit := 0, Final_Balance := 1000 },
   { account := "607", Total_Debit := 500, Total_Credit := 0, Final_Balance := 500 },
   { account := "707", Total_Debit := 0, Total_Credit := 1000, Final_Balance := -1000 }]

/-- C7: on the scenario ledger the aggregator returns exactly the four
expected rows in the order 401, 411, 607, 707; the income classifier on
that output returns products 1000, charges 500, net income 500; and the
integrity check against the output's accounts reports totals 1500/1500 and
difference 0. -/
theorem concrete_scenario_spec :
    calculate_balance_by_account df7 = some rows7
      ∧ calculate_net_income rows7 =
          { Total_Products := 1000, Total_Charges := 500, Net_Income := 500 }
      ∧ check_integrity df7 (rows7.map (fun r => r.account)) = (1500, 1500, 0) := by
  have e1000 : round2 1000 = 1000 := by
    rw [round2_eval 1000 100000 (by norm_num)]
    norm_num
  have e500 : round2 500 = 500 := by
    rw [round2_eval 500 50000 (by norm_num)]
    norm_num
  refine ⟨?_, ?_, ?_⟩
  · rw [calculate_balance_by_account,
      if_pos (show allParseable df7 = true from by decide),
      show (keyVals df7).insertionSort byVal
          = [(401, "401"), (411, "411"), (607, "607"), (707, "707")] from by decide]
    simp [mkRow, debitTotal, creditTotal, df7, rows7]
    decide
  · rw [calculate_net_income_eq,
      show rows7.filter (fun r => startswith r.account "7")
          = [{ account := "707", Total_Debit := 0, Total_Credit := 1000,
               Final_Balance := -1000 }] from by decide,
      show rows7.filter (fun r => startswith r.account "6")
          = [{ account := "607", Total_Debit := 500, Total_Credit := 0,
               Final_Balance := 500 }] from by decide]
    simp
    norm_num [e1000, e500]
  · simp [check_integrity, df7, rows7]
    norm_num

/-! ### C9 -/

/-- A ledger containing a non-numeric account identifier. -/
def dfBad : List TxRecord :=
  [{ date := "2024-07-01", compte_debit := "411", compte_credit := "SUSPENSE",
     montant := 20, libelle := "f", id_transaction := 1 }]

/-- C9: a ledger with a non-numeric account identifier makes the aggregator
fail (it returns no result, modelling the uncaught `ValueError` of
`astype(int)`), while every ledger whose identifiers all parse as
non-negative integers is accepted. -/
theorem aggregator_parse_error :
    (pyInt? "SUSPENSE" = none ∧ "SUSPENSE" ∈ accountKeys dfBad
        ∧ calculate_balance_by_account dfBad = none)
      ∧ (∀ df : List TxRecord,
          (∀ k ∈ accountKeys df, (pyInt? k).isSome = true ∧ 0 ≤ (pyInt? k).getD 0) →
          (calculate_balance_by_account df).isSome = true) := by
  refine ⟨⟨by decide, by decide, by decide⟩, ?_⟩
  intro df hdf
  have hp : allParseable df = true := by
    rw [allParseable, List.all_eq_true]
    intro k hk
    exact (hdf k hk).1
  rw [calculate_balance_by_account, if_pos hp]
  rfl

/-- Witness for the universal half of C9 at the concrete ledger `dfW1`. -/
theorem aggregator_parse_error_witness :
    (calculate_balance_by_account dfW1).isSome = true :=
  aggregator_parse_error.2 dfW1 (by decide)

/-! ### C10 -/

/-- C10: the income classifier depends only on the class-7 credit totals
and the class-6 debit totals: two balance tables that agree (up to order) on
the pairs (account, `Total_Credit`) of their class-7 rows and on the pairs
(account, `Total_Debit`) of their class-6 rows get the same summary,
whatever their `Final_Balance` values, the unused sides of the class-6/7
rows, or the rows of any other class. -/
theorem net_income_noninterference (b1 b2 : List BalanceRow)
    (h7 : ((b1.filter (fun r => startswith r.account "7")).map
            (fun r => (r.account, r.Total_Credit))).Perm
          ((b2.filter (fun r => startswith r.account "7")).map
            (fun r => (r.account, r.Total_Credit))))
    (h6 : ((b1.filter (fun r => startswith r.account "6")).map
            (fun r => (r.account, r.Total_Debit))).Perm
          ((b2.filter (fun r => startswith r.account "6")).map
            (fun r => (r.account, r.Total_Debit)))) :
    calculate_net_income b1 = calculate_net_income b2 := by
  have s7 : ((b1.filter (fun r => startswith r.account "7")).map
        (fun r => r.Total_Credit)).sum
      = ((b2.filter (fun r => startswith r.account "7")).map
        (fun r => r.Total_Credit)).sum := by
    have h := (h7.map Prod.snd).sum_eq
    rw [List.map_map, List.map_map] at h
    exact h
  have s6 : ((b1.filter (fun r => startswith r.account "6")).map
        (fun r => r.Total_Debit)).sum
      = ((b2.filter (fun r => startswith r.account "6")).map
        (fun r => r.Total_Debit)).sum := by
    have h := (h6.map Prod.snd).sum_eq
    rw [List.map_map, List.map_map] at h
    exact h
  rw [calculate_net_income_eq, calculate_net_income_eq, s7, s6]

/-- A first balance table for the C10 witness: only class-6/7 rows. -/
def b10a : List BalanceRow :=
  [{ account := "607", Total_Debit := 500, Total_Credit := 0, Final_Balance := 500 },
   { account := "707", Total_Debit := 0, Total_Credit := 1000, Final_Balance := -1000 }]

/-- A second balance table agreeing with `b10a` on the class-7 credit side
and the class-6 debit side, but differing in the final balances, the unused
sides, and an extra class-4 row. -/
def b10b : List BalanceRow :=
  [{ account := "401", Total_Debit := 7, Total_Credit := 8, Final_Balance := 9 },
   { account := "607", Total_Debit := 500, Total_Credit := 123, Final_Balance := 0 },
   { account := "707", Total_Debit := 55, Total_Credit := 1000, Final_Balance := 77 }]

/-- Witness for C10 at the concrete pair `b10a`, `b10b`. -/
theorem net_income_noninterference_witness :
    calculate_net_income b10a = calculate_net_income b10b :=
  net_income_noninterference b10a b10b
    (by rw [show (b10a.filter (fun r => startswith r.account "7")).map
              (fun r => (r.account, r.Total_Credit))
            = [("707", (1000 : ℚ))] from by decide,
          show (b10b.filter (fun r => startswith r.account "7")).map
              (fun r => (r.account, r.Total_Credit))
            = [("707", (1000 : ℚ))] from by decide])
    (by rw [show (b10a.filter (fun r => startswith r.account "6")).map
              (fun r => (r.account, r.Total_Debit))
            = [("607", (500 : ℚ))] from by decide,
          show (b10b.filter (fun r => startswith r.account "6")).map
              (fun r => (r.account, r.Total_Debit))
            = [("607", (500 : ℚ))] from by decide])
